import Mathlib

/- Verification of the evolutionary-search module of the repository
(monkeys/search.py).  Trees are values of the external tree module and
are embedded as an arbitrary type T; the operations the module consumes
(structural size, symbol containment, crossover, mutation, deep copy,
random construction, evaluation) are supplied as explicit oracles, since
search.py treats them as opaque capabilities.  Python numbers are
embedded as rationals, raised exceptions as an explicit error type
threaded through Except.  Calls to random.random(), random.sample and to
the stochastic oracles are embedded as explicit streams indexed by a
call counter, so that theorems quantify over every possible draw. -/

namespace Monkeys

/-- Python exception classes appearing in search.py; `other` stands for any
exception class distinct from the named ones. -/
inductive PyErr where
  | unsatisfiableType
  | runtimeError
  | nameError
  | valueError
  | other
deriving DecidableEq, Repr

/-- The sentinel failure score: `-sys.maxsize` on a 64-bit CPython build. -/
def sentinel : ℚ := -(2 ^ 63 - 1)

/-- Exception classes caught by the crossover retry loop in next_generation,
line 105: `except (UnsatisfiableType, RuntimeError)`. -/
def caught : PyErr → Bool
  | .unsatisfiableType => true
  | .runtimeError => true
  | _ => false

/-- Lookup in an association list, modelling Python dict indexing for the
dicts search.py builds by comprehensions keyed on the population's trees
(first binding wins; the comprehensions bind every key at most once when
the population holds no duplicate tree objects). -/
def dictGet {T A : Type} [DecidableEq T] : List (T × A) → T → Option A
  | [], _ => none
  | p :: rest, t => if p.1 = t then some p.2 else dictGet rest t

/-- Python `max(iterable, key=k)`: the first element attaining the maximal
key (a later element replaces the running best only on a strictly larger
key); `none` models the ValueError raised on an empty iterable. -/
def pyMaxByKey {T : Type} (key : T → ℚ) : List T → Option T
  | [] => none
  | x :: xs => some (xs.foldl (fun b y => if key b < key y then y else b) x)

theorem foldlMax_mem {T : Type} (key : T → ℚ) :
    ∀ (xs : List T) (x : T),
      xs.foldl (fun b y => if key b < key y then y else b) x ∈ x :: xs := by
  intro xs
  induction xs with
  | nil => intro x; simp
  | cons z zs ih =>
      intro x
      simp only [List.foldl_cons]
      have h := ih (if key x < key z then z else x)
      rcases List.mem_cons.mp h with h1 | h1
      · rw [h1]
        by_cases hxz : key x < key z
        · simp [hxz]
        · simp [hxz]
      · exact List.mem_cons_of_mem _ (List.mem_cons_of_mem _ h1)

theorem foldlMax_ge {T : Type} (key : T → ℚ) :
    ∀ (xs : List T) (x y : T), y ∈ x :: xs →
      key y ≤ key (xs.foldl (fun b y => if key b < key y then y else b) x) := by
  intro xs
  induction xs with
  | nil =>
      intro x y hy
      simp at hy
      subst hy
      simp
  | cons z zs ih =>
      intro x y hy
      simp only [List.foldl_cons]
      have hx : key x ≤ key (if key x < key z then z else x) := by
        by_cases hxz : key x < key z
        · simp [hxz]; exact le_of_lt hxz
        · simp [hxz]
      have hz : key z ≤ key (if key x < key z then z else x) := by
        by_cases hxz : key x < key z
        · simp [hxz]
        · simp [hxz]; exact le_of_not_lt hxz
      rcases List.mem_cons.mp hy with rfl | hy2
      · exact le_trans hx (ih _ _ (List.mem_cons_self _ _))
      rcases List.mem_cons.mp hy2 with rfl | hy3
      · exact le_trans hz (ih _ _ (List.mem_cons_self _ _))
      · exact ih _ y (List.mem_cons_of_mem _ hy3)

theorem pyMaxByKey_mem {T : Type} (key : T → ℚ) (l : List T) (m : T)
    (h : pyMaxByKey key l = some m) : m ∈ l := by
  cases l with
  | nil => simp [pyMaxByKey] at h
  | cons x xs =>
      simp only [pyMaxByKey, Option.some.injEq] at h
      subst h
      exact foldlMax_mem key xs x

theorem pyMaxByKey_ge {T : Type} (key : T → ℚ) (l : List T) (m : T)
    (h : pyMaxByKey key l = some m) : ∀ y ∈ l, key y ≤ key m := by
  cases l with
  | nil => simp [pyMaxByKey] at h
  | cons x xs =>
      simp only [pyMaxByKey, Option.some.injEq] at h
      subst h
      intro y hy
      exact foldlMax_ge key xs x y hy

/-- Size dict of tournament_select, lines 18-22: `sizes = {}` when neither
parsimony technique is enabled, else the num_nodes of every tree (the
get_tree_info oracle is the `sizeOf` parameter). -/
def sizesList {T : Type} (parsimony : Bool) (sizeOf : T → ℕ) (trees : List T) :
    List (T × ℕ) :=
  if parsimony then trees.map (fun t => (t, sizeOf t)) else []

/-- Average size of tournament_select, lines 18-23: 0 when neither parsimony
technique is enabled, else `sum(sizes.itervalues()) / float(len(sizes))`.
Rational division by zero yields 0 where Python would raise
ZeroDivisionError on an empty population; theorems do not use that case. -/
def avgSizeOf {T : Type} (parsimony : Bool) (sizeOf : T → ℕ) (trees : List T) : ℚ :=
  if parsimony then
    ((trees.map (fun t => (sizeOf t : ℚ))).sum) / (trees.length : ℚ)
  else 0

/-- Score dict after the random-parsimony stage, lines 25-34 (Poli 2003).
With random parsimony on, a tree is scored only when its size is at most the
average or the probability draw exceeds the threshold; an unscored tree has
no entry (the defaultdict supplies the sentinel on lookup).  The
random.random() draw for the tree at position i of the population is
embedded as `rand i`. -/
def scoresAfterRandom {T : Type} (random_parsimony : Bool)
    (random_parsimony_prob : ℚ) (rand : ℕ → ℚ) (sizeOf : T → ℕ) (avgSz : ℚ)
    (scoringFn : T → ℚ) (trees : List T) : List (T × ℚ) :=
  if random_parsimony then
    trees.enum.filterMap (fun p =>
      if (sizeOf p.2 : ℚ) ≤ avgSz ∨ random_parsimony_prob < rand p.1 then
        some (p.2, scoringFn p.2)
      else none)
  else
    trees.map (fun t => (t, scoringFn t))

/-- Score lookup with defaultdict semantics (line 27): a tree without an
entry scores `-sys.maxsize`. -/
def scoreLookup {T : Type} [DecidableEq T] (scores : List (T × ℚ)) (t : T) : ℚ :=
  match dictGet scores t with
  | some s => s
  | none => sentinel

/-- Covariance-parsimony coefficient of lines 38-40 (Poli & McPhee 2008):
`c = -(numpy.cov(data.T) / numpy.var(sizes))[0, 1]` where data pairs each
tree's size with its (defaultdict) score.  numpy.cov uses the sample
normalization (N - 1); numpy.var the population normalization (N).
Rational division by zero yields 0 where numpy would produce inf/nan
(population of one tree, or zero size variance); theorems avoid those
inputs. -/
def covCoefficient {T : Type} [DecidableEq T] (sizeOf : T → ℕ)
    (scores : List (T × ℚ)) (trees : List T) : ℚ :=
  let n : ℚ := (trees.length : ℚ)
  let xs := trees.map (fun t => (sizeOf t : ℚ))
  let ys := trees.map (fun t => scoreLookup scores t)
  let xbar := xs.sum / n
  let ybar := ys.sum / n
  let cov := ((xs.zip ys).map (fun p => (p.1 - xbar) * (p.2 - ybar))).sum / (n - 1)
  let sizeVar := (xs.map (fun x => (x - xbar) ^ 2)).sum / n
  Neg.neg (cov / sizeVar)

/-- Covariance-parsimony rescoring, line 41: subtract `c * size` from every
entry of the score dict.  Building the covariance data at line 38 indexes
the defaultdict at every tree, materializing a sentinel entry for each
previously unscored tree, so the line-41 comprehension runs over the whole
population (with its defaultdict score); on a duplicate-free population
that dict is exactly the mapping below. -/
def covStep {T : Type} [DecidableEq T] (sizeOf : T → ℕ)
    (scores : List (T × ℚ)) (trees : List T) : List (T × ℚ) :=
  let c := covCoefficient sizeOf scores trees
  trees.map (fun t => (t, scoreLookup scores t - c * (sizeOf t : ℚ)))

/-- Mean of the non-sentinel scores, lines 44-48: the sentinel itself when
every score is the sentinel (the ZeroDivisionError branch). -/
def meanNonSentinel (scores : List ℚ) : ℚ :=
  let nonInf := scores.filter (fun s => decide (s ≠ sentinel))
  if nonInf.length = 0 then sentinel else nonInf.sum / (nonInf.length : ℚ)

/-- Pseudo-pareto demotion, lines 43-52: a score drops to the sentinel when
it is strictly below the mean of the non-sentinel scores and the tree's
size (`sizes.get(tree, 0)`) strictly exceeds the average size. -/
def paretoStep {T : Type} [DecidableEq T] (scores : List (T × ℚ))
    (sizes : List (T × ℕ)) (avgSz : ℚ) : List (T × ℚ) :=
  let avgScore := meanNonSentinel (scores.map Prod.snd)
  scores.map (fun p =>
    (p.1,
      if p.2 < avgScore ∧ avgSz < (((dictGet sizes p.1).getD 0 : ℕ) : ℚ) then
        sentinel
      else p.2))

/-- The score mapping computed once per selection round by tournament_select,
lines 15-52: sizes and average size, random parsimony, covariance
parsimony, then pseudo-pareto demotion.  `scoringFn` is `_scoring_fn`
(already applied to the population when requires_population is set). -/
def tournamentScores {T : Type} [DecidableEq T]
    (cov_parsimony random_parsimony : Bool) (random_parsimony_prob : ℚ)
    (rand : ℕ → ℚ) (sizeOf : T → ℕ) (scoringFn : T → ℚ) (trees : List T) :
    List (T × ℚ) :=
  let pars := cov_parsimony || random_parsimony
  let szs := sizesList pars sizeOf trees
  let avgSz := avgSizeOf pars sizeOf trees
  let s1 := scoresAfterRandom random_parsimony random_parsimony_prob rand sizeOf
    avgSz scoringFn trees
  let s2 := if cov_parsimony then covStep sizeOf s1 trees else s1
  paretoStep s2 szs avgSz

/-- Environment of the selection stream of tournament_select, lines 57-73.
`scores` is the final per-round score mapping of lines 15-52 (every
population tree carries a score; unscored trees carry the sentinel);
`sample r` is the round-r result of `random.sample(trees, selection_size)`;
`buildReq b` is the b-th call to build_tree_to_requirements(scoring_fn);
`deepcopy` is `copy.deepcopy` run under `recursion_limit(1500)`. -/
structure TSEnv (T : Type) where
  scores : T → ℚ
  sample : ℕ → List T
  buildReq : ℕ → Except PyErr T
  deepcopy : T → Except PyErr T

/-- One observable event of the selection stream: a yielded tree or an
exception escaping the generator. -/
inductive StreamOut (T : Type) where
  | yields (t : T)
  | raises (e : PyErr)
deriving DecidableEq, Repr

/-- One pull from the selection stream (the `while True` loop of lines
57-73), with explicit fuel for the unbounded retry; `none` means the loop
is still running when the fuel runs out.  Faithful to the source:

- a sentinel winner is replaced by build_tree_to_requirements, and an
  UnsatisfiableType from that call is caught and answered by `continue`
  (lines 59-63);
- a non-sentinel winner is deep-copied; the handler for a failing copy is
  written `except RuntimeException:` (line 68) and `RuntimeException` is
  bound nowhere, so under Python semantics any exception escaping the
  `try` makes evaluation of the handler clause raise NameError — the
  fallback of lines 69-72 is unreachable. -/
def selectPull {T : Type} [DecidableEq T] (env : TSEnv T) :
    ℕ → ℕ → ℕ → Option (StreamOut T)
  | 0, _, _ => none
  | fuel + 1, r, b =>
      match pyMaxByKey env.scores (env.sample r) with
      | none => some (.raises .valueError)
      | some winner =>
          if env.scores winner = sentinel then
            match env.buildReq b with
            | .ok t => some (.yields t)
            | .error e =>
                if e = .unsatisfiableType then selectPull env fuel (r + 1) (b + 1)
                else some (.raises e)
          else
            match env.deepcopy winner with
            | .ok t => some (.yields t)
            | .error _ => some (.raises .nameError)

/-- Embedding of pre_evaluate, lines 76-84: evaluate the tree inside the
`try`; any evaluation exception becomes the sentinel score.  The call
`scoring_fn(evaluated_tree)` at line 83 stands outside the `try`, so an
exception raised by the wrapped scoring function propagates. -/
def pre_evaluate {T V : Type} (evaluate : T → Except PyErr V)
    (scoring_fn : V → Except PyErr ℚ) (t : T) : Except PyErr ℚ :=
  match evaluate t with
  | .error _ => .ok sentinel
  | .ok v => scoring_fn v

/-- The attempt loop of build_tree_to_requirements, lines 147-155: on each
attempt build a candidate (`build k` is the tree returned by the k-th call
to build_tree(return_type, convert=False) under recursion_limit(500)),
accept it when it contains every required input symbol, and raise
UnsatisfiableType when the attempts are exhausted. -/
def btrLoop {T : Type} (required : List String) (contains : T → String → Bool)
    (build : ℕ → T) : ℕ → ℕ → Except PyErr T
  | 0, _ => .error .unsatisfiableType
  | n + 1, k =>
      let tree := build k
      if required.all (fun req => contains tree req) then .ok tree
      else btrLoop required contains build n (k + 1)

/-- Embedding of build_tree_to_requirements, lines 141-155: ValueError
unless the scoring function declares exactly one parameter type, then 9999
attempts to build a requirement-satisfying tree of that return type. -/
def build_tree_to_requirements {T P : Type} (params : List P)
    (required_inputs : List String) (contains : T → String → Bool)
    (build : P → ℕ → T) : Except PyErr T :=
  match params with
  | [return_type] => btrLoop required_inputs contains (build return_type) 9999 0
  | _ => .error .valueError

/-- Oracle environment of next_generation, lines 94-116.  `selector i` is
the i-th value pulled from the selection stream (or the exception escaping
that pull); `cross i a b` the i-th call to crossover; `mutateOp i t` the
i-th call to mutate; `buildReq k` the k-th call to
build_tree_to_requirements; `rand i` the i-th draw of random.random(). -/
structure NGEnv (T : Type) where
  selector : ℕ → Except PyErr T
  cross : ℕ → T → T → Except PyErr T
  mutateOp : ℕ → T → Except PyErr T
  buildReq : ℕ → Except PyErr T
  rand : ℕ → ℚ

/-- Call counters threading the oracle streams through next_generation. -/
structure NGState where
  sel : ℕ
  cross : ℕ
  mutN : ℕ
  build : ℕ
  rnd : ℕ
deriving DecidableEq, Repr

/-- The crossover retry loop of next_generation, lines 101-108: up to 99999
attempts, each pulling two individuals and crossing them, catching
UnsatisfiableType and RuntimeError from the body; when every attempt fails
the for-else appends build_tree_to_requirements(scoring_fn) with no
handler around it. -/
def crossoverLoop {T : Type} (env : NGEnv T) :
    ℕ → NGState → Except PyErr (T × NGState)
  | 0, s =>
      match env.buildReq s.build with
      | .ok t => .ok (t, { s with build := s.build + 1 })
      | .error e => .error e
  | n + 1, s =>
      match env.selector s.sel with
      | .error e =>
          if caught e then crossoverLoop env n { s with sel := s.sel + 1 }
          else .error e
      | .ok a =>
          match env.selector (s.sel + 1) with
          | .error e =>
              if caught e then crossoverLoop env n { s with sel := s.sel + 2 }
              else .error e
          | .ok b =>
              match env.cross s.cross a b with
              | .ok t => .ok (t, { s with sel := s.sel + 2, cross := s.cross + 1 })
              | .error e =>
                  if caught e then
                    crossoverLoop env n { s with sel := s.sel + 2, cross := s.cross + 1 }
                  else .error e

/-- Production of one non-elite slot, lines 100-114: crossover with
probability crossover_rate, else mutation with conditional probability
mutation_rate / (1 - crossover_rate), else plain reproduction.  The
mutation and reproduction branches carry no exception handler. -/
def ngSlot {T : Type} (env : NGEnv T) (crossover_rate mutation_rate : ℚ)
    (s : NGState) : Except PyErr (T × NGState) :=
  if env.rand s.rnd ≤ crossover_rate then
    crossoverLoop env 99999 { s with rnd := s.rnd + 1 }
  else if env.rand (s.rnd + 1) ≤ mutation_rate / (1 - crossover_rate) then
    match env.selector s.sel with
    | .error e => .error e
    | .ok a =>
        match env.mutateOp s.mutN a with
        | .error e => .error e
        | .ok t => .ok (t, { s with sel := s.sel + 1, mutN := s.mutN + 1, rnd := s.rnd + 2 })
  else
    match env.selector s.sel with
    | .error e => .error e
    | .ok t => .ok (t, { s with sel := s.sel + 1, rnd := s.rnd + 2 })

/-- The slot loop of next_generation, lines 99-114: pop_size - 1 rounds,
each appending exactly one tree to the new population. -/
def ngLoop {T : Type} (env : NGEnv T) (crossover_rate mutation_rate : ℚ) :
    ℕ → NGState → List T → Except PyErr (List T)
  | 0, _, acc => .ok acc
  | n + 1, s, acc =>
      match ngSlot env crossover_rate mutation_rate s with
      | .error e => .error e
      | .ok (t, s2) => ngLoop env crossover_rate mutation_rate n s2 (acc ++ [t])

/-- Embedding of next_generation, lines 94-116: the new population starts
as `[max(trees, key=scoring_fn)]` — the best-scoring tree object of the
current population itself, with no copy taken — and receives
`len(trees) - 1` further slots.  `max` of an empty population raises
ValueError. -/
def next_generation {T : Type} (env : NGEnv T) (trees : List T)
    (scoring_fn : T → ℚ) (crossover_rate mutation_rate : ℚ) :
    Except PyErr (List T) :=
  match pyMaxByKey scoring_fn trees with
  | none => .error .valueError
  | some elite =>
      ngLoop env crossover_rate mutation_rate (trees.length - 1)
        ⟨0, 0, 0, 0, 0⟩ [elite]

theorem ngLoop_length {T : Type} (env : NGEnv T) (cr mr : ℚ) :
    ∀ (n : ℕ) (s : NGState) (acc out : List T),
      ngLoop env cr mr n s acc = .ok out → out.length = acc.length + n := by
  intro n
  induction n with
  | zero =>
      intro s acc out h
      simp only [ngLoop, Except.ok.injEq] at h
      subst h
      simp
  | succ n ih =>
      intro s acc out h
      simp only [ngLoop] at h
      cases hs : ngSlot env cr mr s with
      | error e => rw [hs] at h; nomatch h
      | ok p =>
          rw [hs] at h
          have := ih p.2 (acc ++ [p.1]) out h
          simp at this
          omega

theorem ngLoop_head {T : Type} (env : NGEnv T) (cr mr : ℚ) :
    ∀ (n : ℕ) (s : NGState) (acc out : List T),
      ngLoop env cr mr n s acc = .ok out → acc ≠ [] → out.head? = acc.head? := by
  intro n
  induction n with
  | zero =>
      intro s acc out h _
      simp only [ngLoop, Except.ok.injEq] at h
      subst h
      rfl
  | succ n ih =>
      intro s acc out h hne
      simp only [ngLoop] at h
      cases hs : ngSlot env cr mr s with
      | error e => rw [hs] at h; nomatch h
      | ok p =>
          rw [hs] at h
          have := ih p.2 (acc ++ [p.1]) out h (by simp)
          rw [this]
          cases acc with
          | nil => exact absurd rfl hne
          | cons a as => simp

theorem dictGet_map_self {T A : Type} [DecidableEq T] (g : T → A) :
    ∀ (trees : List T) (t : T), t ∈ trees →
      dictGet (trees.map (fun x => (x, g x))) t = some (g t) := by
  intro trees
  induction trees with
  | nil => intro t ht; simp at ht
  | cons x xs ih =>
      intro t ht
      simp only [List.map_cons, dictGet]
      by_cases hx : x = t
      · subst hx; simp
      · rw [if_neg hx]
        rcases List.mem_cons.mp ht with rfl | h2
        · exact absurd rfl hx
        · exact ih t h2

/-- C2: for every input population on which next_generation returns
normally, the returned population has exactly as many trees as the input
population: the loop of lines 99-114 appends exactly one tree per round in
each of its three branches, on top of the single elite of line 98. -/
theorem next_generation_preserves_length {T : Type} (env : NGEnv T)
    (trees : List T) (scoring_fn : T → ℚ) (cr mr : ℚ) (out : List T)
    (h : next_generation env trees scoring_fn cr mr = .ok out) :
    out.length = trees.length := by
  cases trees with
  | nil => simp [next_generation, pyMaxByKey] at h
  | cons x xs =>
      simp only [next_generation, pyMaxByKey] at h
      have hl := ngLoop_length env cr mr ((x :: xs).length - 1) ⟨0, 0, 0, 0, 0⟩ _ out h
      simp at hl ⊢
      omega

/-- Raw scoring function of the concrete test population: tree 3 scores 1,
every other tree scores 0. -/
def fBest3 : ℕ → ℚ := fun t => if t = 3 then 1 else 0

/-- Oracle environment in which every random draw is 1, so with zero
crossover and mutation rates every non-elite slot is plain reproduction,
and the selection stream always yields the fresh tree object 100. -/
def envRepro : NGEnv ℕ :=
  { selector := fun _ => .ok 100
    cross := fun _ a b => .ok (a + b)
    mutateOp := fun _ a => .ok a
    buildReq := fun _ => .ok 0
    rand := fun _ => 1 }

theorem next_generation_preserves_length_witness :
    ([3, 100] : List ℕ).length = ([3, 7] : List ℕ).length :=
  next_generation_preserves_length envRepro [3, 7] fBest3 0 0 [3, 100] (by
    norm_num [next_generation, ngLoop, ngSlot, pyMaxByKey, envRepro, fBest3])

/-- C1, counterexample: trees are embedded as object identities and every
oracle that the spec calls a copy or a fresh synthesis returns an identity
outside the input population, yet index 0 of the output of next_generation
is the identity 3 — an element of the input population itself.  Line 98
`new_pop = [max(trees, key=scoring_fn)]` takes the best tree object of the
current population without any deep copy, so the elite slot is a bare
alias into the input population, contradicting the claim that no returned
tree aliases an input tree. -/
theorem next_generation_elite_alias_counterexample :
    next_generation envRepro [3, 7] fBest3 0 0 = .ok [3, 100] ∧ (3 : ℕ) ∈ [3, 7] := by
  constructor
  · norm_num [next_generation, ngLoop, ngSlot, pyMaxByKey, envRepro, fBest3]
  · simp

/-- C1, amended: index 0 of a normally returned population is the first
argmax of the input population under the raw scoring function, taken from
the input population itself (the same tree object, no copy). -/
theorem next_generation_elite_first_argmax {T : Type} (env : NGEnv T)
    (trees : List T) (scoring_fn : T → ℚ) (cr mr : ℚ) (out : List T)
    (h : next_generation env trees scoring_fn cr mr = .ok out) :
    ∃ m, pyMaxByKey scoring_fn trees = some m ∧ out.head? = some m ∧
      m ∈ trees ∧ ∀ y ∈ trees, scoring_fn y ≤ scoring_fn m := by
  cases hm : pyMaxByKey scoring_fn trees with
  | none =>
      unfold next_generation at h
      rw [hm] at h
      nomatch h
  | some m =>
      refine ⟨m, rfl, ?_, pyMaxByKey_mem _ _ _ hm, pyMaxByKey_ge _ _ _ hm⟩
      unfold next_generation at h
      rw [hm] at h
      have := ngLoop_head env cr mr (trees.length - 1) ⟨0, 0, 0, 0, 0⟩ [m] out h (by simp)
      simpa using this

theorem next_generation_elite_first_argmax_witness :
    ∃ m, pyMaxByKey fBest3 [3, 7] = some m ∧ ([3, 100] : List ℕ).head? = some m ∧
      m ∈ [3, 7] ∧ ∀ y ∈ [3, 7], fBest3 y ≤ fBest3 m :=
  next_generation_elite_first_argmax envRepro [3, 7] fBest3 0 0 [3, 100] (by
    norm_num [next_generation, ngLoop, ngSlot, pyMaxByKey, envRepro, fBest3])

/-- Stream environment in which every tournament winner carries the
sentinel score and the first synthesis attempt fails with
UnsatisfiableType while the second succeeds with tree 42. -/
def tsSentinelEnv : TSEnv ℕ :=
  { scores := fun _ => sentinel
    sample := fun _ => [0]
    buildReq := fun b => if b = 0 then .error .unsatisfiableType else .ok 42
    deepcopy := fun t => .ok t }

/-- C3, counterexample: the winner's score is the sentinel and the first
build_tree_to_requirements call fails with UnsatisfiableType, yet the
stream yields the tree of the second synthesis call instead of
propagating the failure: lines 62-63 read `except UnsatisfiableType:
continue`, so the failure is caught and the tournament round is retried
at this layer, not surfaced as fatal. -/
theorem select_unsat_retried_counterexample :
    tsSentinelEnv.buildReq 0 = .error .unsatisfiableType ∧
    selectPull tsSentinelEnv 2 0 0 = some (.yields 42) := by
  constructor
  · rfl
  · norm_num [selectPull, tsSentinelEnv, pyMaxByKey]

/-- C3, amended: an UnsatisfiableType raised by the synthesis fallback of
the selection stream is caught and answered by retrying a fresh tournament
round; the stream never surfaces UnsatisfiableType to its caller, however
much fuel the loop is given (if synthesis keeps failing the loop simply
never yields). -/
theorem selectPull_never_raises_unsat {T : Type} [DecidableEq T] (env : TSEnv T) :
    ∀ (fuel r b : ℕ),
      selectPull env fuel r b ≠ some (.raises .unsatisfiableType) := by
  intro fuel
  induction fuel with
  | zero => intro r b h; simp [selectPull] at h
  | succ n ih =>
      intro r b h
      simp only [selectPull] at h
      cases hm : pyMaxByKey env.scores (env.sample r) with
      | none => simp only [hm] at h; simp at h
      | some w =>
          simp only [hm] at h
          by_cases hsent : env.scores w = sentinel
          · rw [if_pos hsent] at h
            cases hb : env.buildReq b with
            | ok t => simp only [hb] at h; simp at h
            | error e =>
                simp only [hb] at h
                by_cases he : e = .unsatisfiableType
                · rw [if_pos he] at h
                  exact ih _ _ h
                · rw [if_neg he] at h
                  simp at h
                  exact he h
          · rw [if_neg hsent] at h
            cases hd : env.deepcopy w with
            | ok t => simp only [hd] at h; simp at h
            | error e2 => simp only [hd] at h; simp at h

theorem selectPull_never_raises_unsat_witness :
    selectPull tsSentinelEnv 1 0 0 ≠ some (.raises .unsatisfiableType) :=
  selectPull_never_raises_unsat tsSentinelEnv 1 0 0

/-- Stream environment in which the tournament winner scores 0 (not the
sentinel) and the structural deep copy of the winner fails with a
RuntimeError (stack exhaustion) even under the raised recursion limit. -/
def tsCopyFailEnv : TSEnv ℕ :=
  { scores := fun _ => 0
    sample := fun _ => [7]
    buildReq := fun _ => .ok 42
    deepcopy := fun _ => .error .runtimeError }

/-- C5: when the deep copy of a non-sentinel winner fails with
RuntimeError, the stream raises NameError instead of yielding a freshly
synthesized tree (available here as tree 42): the handler at line 68 is
written `except RuntimeException:` and no name RuntimeException is bound
anywhere, so evaluating the handler clause during exception handling
raises NameError and the synthesis fallback of lines 69-72 is dead code.
The spec's intended behaviour is what the sibling handler at line 105
implements with RuntimeError, so the code, not the claim, is at fault. -/
theorem select_copy_fault_raises_nameerror :
    selectPull tsCopyFailEnv 1 0 0 = some (.raises .nameError) := by
  norm_num [selectPull, tsCopyFailEnv, pyMaxByKey, sentinel]

/-- Oracle environment routing the single non-elite slot of a 2-tree
population to the mutation branch (first draw 1 refuses crossover at rate
1/2, second draw 0 accepts mutation), whose mutate call then fails with a
RuntimeError. -/
def envMutFail : NGEnv ℕ :=
  { selector := fun _ => .ok 9
    cross := fun _ a b => .ok (a + b)
    mutateOp := fun _ _ => .error .runtimeError
    buildReq := fun _ => .ok 0
    rand := fun n => if n = 0 then 1 else 0 }

/-- C4, counterexample: a RuntimeError raised by mutate surfaces to the
caller of next_generation.  Line 111 `new_pop.append(mutate(next(selector)))`
carries no exception handler — only the crossover branch (lines 101-108)
retries and falls back — so a structural operation fault raised by
mutation is not recovered locally, contradicting the claim. -/
theorem mutation_fault_surfaces_counterexample :
    next_generation envMutFail [3, 7] fBest3 (1 / 2) (1 / 10) = .error .runtimeError := by
  norm_num [next_generation, ngLoop, ngSlot, pyMaxByKey, envMutFail, fBest3]

/-- C4, amended: a structural operation fault raised by crossover
(UnsatisfiableType or RuntimeError, the classes line 105 catches) is
recovered inside the retry loop of lines 101-108 — retried up to 99999
times and then downgraded to a synthesis fallback — and is never the
error surfaced by that loop: any error it surfaces comes from the
build_tree_to_requirements fallback.  A fault raised by mutate, by
contrast, propagates to the caller of next_generation (see the
counterexample). -/
theorem crossover_fault_recovered_locally {T : Type} (env : NGEnv T)
    (hsel : ∀ i e, env.selector i = .error e → caught e = true)
    (hcross : ∀ i a b e, env.cross i a b = .error e → caught e = true) :
    ∀ (n : ℕ) (s : NGState) (e : PyErr),
      crossoverLoop env n s = .error e → ∃ k, env.buildReq k = .error e := by
  intro n
  induction n with
  | zero =>
      intro s e h
      simp only [crossoverLoop] at h
      cases hb : env.buildReq s.build with
      | ok t => rw [hb] at h; nomatch h
      | error e2 =>
          rw [hb] at h
          simp only [Except.error.injEq] at h
          subst h
          exact ⟨s.build, hb⟩
  | succ n ih =>
      intro s e h
      simp only [crossoverLoop] at h
      cases hs1 : env.selector s.sel with
      | error e1 =>
          simp only [hs1, hsel _ _ hs1, if_true, eq_self_iff_true] at h
          exact ih _ _ h
      | ok a =>
          simp only [hs1] at h
          cases hs2 : env.selector (s.sel + 1) with
          | error e2 =>
              simp only [hs2, hsel _ _ hs2, if_true, eq_self_iff_true] at h
              exact ih _ _ h
          | ok b =>
              simp only [hs2] at h
              cases hc : env.cross s.cross a b with
              | ok t => simp only [hc] at h; nomatch h
              | error e3 =>
                  simp only [hc, hcross _ _ _ _ hc, if_true, eq_self_iff_true] at h
                  exact ih _ _ h

/-- Oracle environment whose crossover always fails with RuntimeError and
whose synthesis fallback fails with UnsatisfiableType. -/
def envCrossFail : NGEnv ℕ :=
  { selector := fun _ => .ok 1
    cross := fun _ _ _ => .error .runtimeError
    mutateOp := fun _ a => .ok a
    buildReq := fun _ => .error .unsatisfiableType
    rand := fun _ => 0 }

theorem crossover_fault_recovered_locally_witness :
    ∃ k, envCrossFail.buildReq k = .error .unsatisfiableType :=
  crossover_fault_recovered_locally envCrossFail
    (by intro i e h; simp [envCrossFail] at h)
    (by
      intro i a b e h
      simp only [envCrossFail, Except.error.injEq] at h
      subst h
      rfl)
    1 ⟨0, 0, 0, 0, 0⟩ .unsatisfiableType (by
      simp [crossoverLoop, envCrossFail, caught])

/-- C6, counterexample: tree evaluation succeeds with value 0 and the
wrapped scoring function itself raises; pre_evaluate propagates that
exception instead of mapping it to the sentinel, because line 83
`return scoring_fn(evaluated_tree)` stands outside the try block of
lines 79-82. -/
theorem pre_evaluate_fn_fault_counterexample :
    pre_evaluate (fun _ : ℕ => (Except.ok 0 : Except PyErr ℕ))
      (fun _ => .error .other) 0 = .error .other ∧
    (Except.error .other : Except PyErr ℚ) ≠ .ok sentinel := by
  constructor
  · rfl
  · simp

/-- C6, amended: pre_evaluate returns the sentinel failure score exactly
when evaluating the tree raises, and otherwise returns the wrapped
scoring function applied to the evaluated value — including any exception
that call raises, which propagates to the caller unrecovered. -/
theorem pre_evaluate_spec {T V : Type} (evaluate : T → Except PyErr V)
    (scoring_fn : V → Except PyErr ℚ) (t : T) :
    (∀ e, evaluate t = .error e →
      pre_evaluate evaluate scoring_fn t = .ok sentinel) ∧
    (∀ v, evaluate t = .ok v →
      pre_evaluate evaluate scoring_fn t = scoring_fn v) := by
  constructor
  · intro e he
    unfold pre_evaluate
    rw [he]
  · intro v hv
    unfold pre_evaluate
    rw [hv]

theorem pre_evaluate_spec_witness :
    pre_evaluate (fun _ : ℕ => (Except.error .other : Except PyErr ℕ))
      (fun _ => .ok 1) 0 = .ok sentinel :=
  (pre_evaluate_spec (fun _ : ℕ => (Except.error .other : Except PyErr ℕ))
    (fun _ => .ok 1) 0).1 .other rfl

theorem scoreLookup_map_self {T : Type} [DecidableEq T] (g : T → ℚ)
    (trees : List T) (t : T) (ht : t ∈ trees) :
    scoreLookup (trees.map (fun x => (x, g x))) t = g t := by
  unfold scoreLookup
  rw [dictGet_map_self g trees t ht]

/-- Concrete size oracle for the covariance counterexample: tree t has
t + 1 nodes, so the three-tree population has sizes 1, 2, 3 and nonzero
size variance. -/
def sizeLinear : ℕ → ℕ := fun t => t + 1

/-- Score dict in which trees 0 and 1 were scored 4 and 8 and tree 2 was
disqualified by random parsimony, so its defaultdict entry is the
sentinel. -/
def scoresTwoOfThree : List (ℕ × ℚ) := [(0, 4), (1, 8)]

/-- C7, counterexample: with covariance parsimony enabled on a population
whose tree 2 holds the sentinel failure score, the rescoring of line 41
moves that entry away from the sentinel: the comprehension subtracts
`c * size` from every entry of the score dict, the sentinel entries
materialized at line 38 included, so a disqualified tree's entry does not
remain the sentinel after this step. -/
theorem covStep_sentinel_changed_counterexample :
    scoreLookup scoresTwoOfThree 2 = sentinel ∧
    scoreLookup (covStep sizeLinear scoresTwoOfThree [0, 1, 2]) 2 ≠ sentinel := by
  constructor
  · norm_num [scoreLookup, dictGet, scoresTwoOfThree]
  · norm_num [scoreLookup, covStep, covCoefficient, dictGet, scoresTwoOfThree,
      sizeLinear, sentinel]

/-- C7, amended: when covariance parsimony is enabled, the penalty
`c * size(tree)` — with `c` the negated ratio of the sample
covariance(size, score) to the population variance(size) — is subtracted
uniformly from every tree's recorded score, sentinel entries included;
sentinel failure scores are not left unchanged by this step. -/
theorem covStep_penalizes_every_entry {T : Type} [DecidableEq T]
    (sizeOf : T → ℕ) (scores : List (T × ℚ)) (trees : List T) (t : T)
    (ht : t ∈ trees) :
    scoreLookup (covStep sizeOf scores trees) t =
      scoreLookup scores t -
        covCoefficient sizeOf scores trees * (sizeOf t : ℚ) := by
  show scoreLookup (trees.map (fun x =>
    (x, scoreLookup scores x - covCoefficient sizeOf scores trees * (sizeOf x : ℚ)))) t = _
  exact scoreLookup_map_self _ trees t ht

theorem covStep_penalizes_every_entry_witness :
    scoreLookup (covStep sizeLinear scoresTwoOfThree [0, 1, 2]) 2 =
      scoreLookup scoresTwoOfThree 2 -
        covCoefficient sizeLinear scoresTwoOfThree [0, 1, 2] * (sizeLinear 2 : ℚ) :=
  covStep_penalizes_every_entry sizeLinear scoresTwoOfThree [0, 1, 2] 2 (by simp)

/-- Size oracle of the spec's pseudo-pareto test population: trees 0 and 1
have 1 node, trees 2 and 3 have 10. -/
def sizeFour : ℕ → ℕ := fun t => if t < 2 then 1 else 10

/-- Raw scores of the spec's pseudo-pareto test population: trees 0 and 1
score 5, trees 2 and 3 score 1. -/
def scoreFour : ℕ → ℚ := fun t => if t < 2 then 5 else 1

/-- C8: in the pseudo-pareto step a non-sentinel score is demoted to the
sentinel exactly when it is strictly below the mean of the non-sentinel
scores (that mean being the sentinel when none exist) and the tree's size
strictly exceeds the average size; and on the population with sizes
[1, 1, 10, 10] and raw scores [5, 5, 1, 1] (average size 11/2, mean score
3, every tree scored because every probability draw is 1) the two size-10
trees are demoted to the sentinel and the two size-1 trees keep score 5. -/
theorem paretoStep_demotion :
    (∀ {T : Type} [DecidableEq T] (scores : List (T × ℚ))
       (sizes : List (T × ℕ)) (avgSz : ℚ) (i : ℕ) (p : T × ℚ),
       scores[i]? = some p → p.2 ≠ sentinel →
       ((paretoStep scores sizes avgSz)[i]? = some (p.1, sentinel) ↔
         (p.2 < meanNonSentinel (scores.map Prod.snd) ∧
          avgSz < (((dictGet sizes p.1).getD 0 : ℕ) : ℚ)))) ∧
    tournamentScores false true (33 / 100) (fun _ => 1) sizeFour scoreFour
        [0, 1, 2, 3] =
      [(0, 5), (1, 5), (2, sentinel), (3, sentinel)] := by
  constructor
  · intro T _ scores sizes avgSz i p hi hp2
    unfold paretoStep
    rw [List.getElem?_map, hi]
    simp only [Option.map_some', Option.some.injEq, Prod.mk.injEq, true_and]
    by_cases hc : p.2 < meanNonSentinel (scores.map Prod.snd) ∧
        avgSz < (((dictGet sizes p.1).getD 0 : ℕ) : ℚ)
    · rw [if_pos hc]
      simp [hc]
    · rw [if_neg hc]
      simp [hc, hp2]
  · norm_num [tournamentScores, sizesList, avgSizeOf, scoresAfterRandom,
      paretoStep, meanNonSentinel, scoreLookup, dictGet, sizeFour, scoreFour,
      List.enum, List.enumFrom, List.filterMap_cons, sentinel]

theorem paretoStep_demotion_witness :
    (paretoStep [((0 : ℕ), (5 : ℚ))] [] 0)[0]? = some (0, sentinel) ↔
      ((5 : ℚ) < meanNonSentinel ([((0 : ℕ), (5 : ℚ))].map Prod.snd) ∧
       (0 : ℚ) < (((dictGet ([] : List (ℕ × ℕ)) 0).getD 0 : ℕ) : ℚ)) :=
  paretoStep_demotion.1 [((0 : ℕ), (5 : ℚ))] [] 0 0 (0, 5) rfl
    (by norm_num [sentinel])

theorem btrLoop_ok {T : Type} (required : List String)
    (contains : T → String → Bool) (build : ℕ → T) :
    ∀ (n k : ℕ) (t : T), btrLoop required contains build n k = .ok t →
      required.all (fun req => contains t req) = true := by
  intro n
  induction n with
  | zero => intro k t h; simp [btrLoop] at h
  | succ n ih =>
      intro k t h
      simp only [btrLoop] at h
      by_cases hc : required.all (fun req => contains (build k) req) = true
      · rw [if_pos hc] at h
        simp only [Except.ok.injEq] at h
        subst h
        exact hc
      · rw [if_neg hc] at h
        exact ih _ _ h

theorem btrLoop_exhaust {T : Type} (required : List String)
    (contains : T → String → Bool) (build : ℕ → T) :
    ∀ (n k : ℕ),
      (∀ j, j < n → required.all (fun req => contains (build (k + j)) req) = false) →
      btrLoop required contains build n k = .error .unsatisfiableType := by
  intro n
  induction n with
  | zero => intro k _; rfl
  | succ n ih =>
      intro k hall
      have h0 := hall 0 (Nat.succ_pos n)
      simp only [Nat.add_zero] at h0
      simp only [btrLoop]
      rw [if_neg (by simp [h0])]
      apply ih
      intro j hj
      rw [show k + 1 + j = k + (j + 1) by omega]
      exact hall (j + 1) (by omega)

/-- C9: build_tree_to_requirements, called with a scoring function
declaring one parameter type, only ever returns a tree containing every
required input symbol (so with requirement set containing "x" it never
returns a tree lacking "x", whatever candidates the builder produces
across repeated calls), and when none of the 9999 candidate trees
satisfies the requirements it fails with UnsatisfiableType instead of
returning a tree. -/
theorem build_tree_to_requirements_spec {T P : Type} (rt : P)
    (required : List String) (contains : T → String → Bool)
    (build : P → ℕ → T) :
    (∀ t, build_tree_to_requirements [rt] required contains build = .ok t →
       required.all (fun req => contains t req) = true) ∧
    ((∀ k, k < 9999 →
        required.all (fun req => contains (build rt k) req) = false) →
      build_tree_to_requirements [rt] required contains build =
        .error .unsatisfiableType) := by
  constructor
  · intro t h
    exact btrLoop_ok required contains (build rt) 9999 0 t h
  · intro hall
    show btrLoop required contains (build rt) 9999 0 = .error .unsatisfiableType
    apply btrLoop_exhaust
    intro j hj
    simpa using hall j hj

theorem build_tree_to_requirements_spec_witness :
    build_tree_to_requirements [()] (List.cons "x" List.nil)
      (fun (_ : ℕ) (_ : String) => false) (fun _ _ => 0) =
      .error .unsatisfiableType :=
  (build_tree_to_requirements_spec () (List.cons "x" List.nil)
    (fun (_ : ℕ) (_ : String) => false) (fun _ _ => 0)).2 (fun _ _ => rfl)

/-- C10: with both parsimony flags disabled, no size metric is recorded
(the sizes dict stays empty and the average size is 0, so the
size-exceeds-average test `sizes.get(tree, 0) > avg_size` reads 0 > 0 and
never fires), the pseudo-pareto step demotes nothing, and the final score
mapping of tournament_select is exactly the raw scoring function applied
to each tree. -/
theorem tournament_no_parsimony_raw {T : Type} [DecidableEq T] (prob : ℚ)
    (rand : ℕ → ℚ) (sizeOf : T → ℕ) (scoringFn : T → ℚ) (trees : List T) :
    sizesList false sizeOf trees = [] ∧
    avgSizeOf false sizeOf trees = 0 ∧
    tournamentScores false false prob rand sizeOf scoringFn trees =
      trees.map (fun t => (t, scoringFn t)) := by
  refine ⟨rfl, rfl, ?_⟩
  show paretoStep (trees.map (fun t => (t, scoringFn t))) [] 0 =
    trees.map (fun t => (t, scoringFn t))
  unfold paretoStep
  rw [List.map_map]
  apply List.map_congr_left
  intro a _
  simp [dictGet]

end Monkeys
